import Mathlib

/-!
Shallow embedding of the DFU updater core (`src/app.py`): the progress
snapshot holder, the configuration loader, and the single-flight job
orchestration of `DfuApi.start_dfu`.  Python numbers are modelled as `Int`
(step counts) and `ℚ` (percentages); Python exceptions as `Except String`.
-/

namespace Dfu

/-- Rounding of a rational to the nearest integer, ties to even — the
tie-breaking rule of Python `round` — computed on numerator and
denominator with integer arithmetic only. -/
def roundHalfEven (q : ℚ) : ℤ :=
  let n := q.num
  let d : ℤ := (q.den : ℤ)
  let f := n.fdiv d
  let r2 := 2 * (n - f * d)
  if r2 < d then f else if d < r2 then f + 1 else if f % 2 = 0 then f else f + 1

/-- Model of Python `round(x, 1)`: round to one decimal place. -/
def pyRound1 (q : ℚ) : ℚ := (roundHalfEven (q * 10) : ℚ) / 10

/-- One progress snapshot: the dict stored in `DfuApi._progress`
(`src/app.py` line 52). -/
structure Progress where
  current : Int
  total : Int
  message : String
  percentage : ℚ
deriving DecidableEq

/-- Initial progress set in `DfuApi.__init__` (`src/app.py` line 52). -/
def initProgress : Progress := ⟨0, 0, "", 0⟩

/-- Mutable state of a `DfuApi` instance: the progress snapshot and the
running flag (`src/app.py` lines 52-54).  The lock is modelled by making
every lock-held critical section one atomic state update. -/
structure DfuState where
  progress : Progress
  running : Bool
deriving DecidableEq

/-- Embedding of `DfuApi._set_progress` (`src/app.py` lines 150-161):
when `percentage` is omitted it is computed as `current/total*100` for
`total > 0` and `0.0` otherwise; the value is rounded to one decimal
before storage. -/
def set_progress (s : DfuState) (current total : Int) (message : String)
    (percentage : Option ℚ) : DfuState :=
  let p : ℚ :=
    match percentage with
    | none => if 0 < total then ((current : ℚ) / (total : ℚ)) * 100 else 0
    | some p => p
  { s with progress := ⟨current, total, message, pyRound1 p⟩ }

/-- Lookup in a Python dict built from a list of key/value pairs: the last
binding of a key wins, as when `json.load` parses duplicate keys. -/
def dictGet (data : List (String × Int)) (k : String) : Option Int :=
  data.foldl (fun acc kv => if kv.1 = k then some kv.2 else acc) none

/-- The built-in defaults `DEFAULT_ADVANCED` (`src/app.py` lines 21-28). -/
def DEFAULT_ADVANCED : List (String × Int) :=
  [("app_id", 1), ("start_address", 0), ("block_size", 512),
   ("ring_type", 8), ("force_flags", 0), ("reboot_wait", 10)]

/-- The reads of `config.json` on which `load_config` returns normally:
an absent file, a read or parse failure that the `except` clause of
`src/app.py` line 43 actually catches (`OSError`, `json.JSONDecodeError`),
or a parsed object document.  The full read model, including the paths on
which `load_config` raises instead of returning, is `ConfigFile` with
`load_config_py` below; the job body is run over the returning reads. -/
inductive ConfigRead where
  | absent
  | caughtError
  | ok (data : List (String × Int))

/-- The returning branches of `load_config` (`src/app.py` lines 33-45):
start from a copy of the defaults and, when the file parses to an object,
overwrite each default key that the document binds; on a missing file or
a caught read/parse failure return the pure defaults.  `load_config_py`
below extends this with the branches on which the source function
raises. -/
def load_config (r : ConfigRead) : List (String × Int) :=
  match r with
  | .ok data => DEFAULT_ADVANCED.map (fun kv => (kv.1, (dictGet data kv.1).getD kv.2))
  | _ => DEFAULT_ADVANCED

/-- Value of a key in a merged configuration, with fallback 0; models
`cfg["app_id"]` etc. in the job body, where the key is always bound. -/
def cfgGet (cfg : List (String × Int)) (k : String) : Int :=
  (dictGet cfg k).getD 0

/-- Whether the second character list is an initial run of the first. -/
def charsStartsWith : List Char → List Char → Bool
  | _, [] => true
  | [], _ :: _ => false
  | a :: as, b :: bs => a = b && charsStartsWith as bs

/-- Whether the second character list occurs contiguously in the first. -/
def charsContains : List Char → List Char → Bool
  | [], needle => charsStartsWith [] needle
  | a :: t, needle => charsStartsWith (a :: t) needle || charsContains t needle

/-- Python `needle in hay` on strings: substring containment. -/
def pyStrContains (hay needle : String) : Bool :=
  charsContains hay.toList needle.toList

/-- A parsed top-level JSON document, by how Python `key in data` and
`data[key]` behave on it: an object (field values modelled as numbers,
the type of the defaults — the merge loop copies values without
inspecting them); a string, where membership is substring containment and
indexing by a string raises `TypeError`; an array, represented by its
string elements, the only elements a string key can equal under the
membership test, with string indexing again raising `TypeError`; or a
number, boolean or null, on which the membership test itself raises
`TypeError`. -/
inductive JDoc where
  | obj (fields : List (String × Int))
  | str (s : String)
  | arr (strElems : List String)
  | prim

/-- The Python exceptions `load_config` can propagate. -/
inductive PyExc where
  | unicodeDecodeError
  | typeError
deriving DecidableEq

/-- Full model of one read of `config.json`: absent file; `open`/read
failing with `OSError`; file bytes that are not valid UTF-8, where
`json.load` raises `UnicodeDecodeError`; invalid JSON text, where it
raises `json.JSONDecodeError`; or a successfully parsed document. -/
inductive ConfigFile where
  | absent
  | osError
  | badUtf8
  | badJson
  | parsed (doc : JDoc)

/-- Full embedding of `load_config` (`src/app.py` lines 33-45), raising
paths included.  The `except` clause catches only `json.JSONDecodeError`
and `OSError`, so a `UnicodeDecodeError` from a non-UTF-8 file
propagates; and on a parsed non-object document the merge loop raises
`TypeError` at the first recognized key the membership test hits (for
numbers, booleans and null the membership test itself raises), while a
string or array document that meets no recognized key completes the loop
and yields the defaults. -/
def load_config_py : ConfigFile → Except PyExc (List (String × Int))
  | .absent => .ok DEFAULT_ADVANCED
  | .osError => .ok DEFAULT_ADVANCED
  | .badJson => .ok DEFAULT_ADVANCED
  | .badUtf8 => .error .unicodeDecodeError
  | .parsed (.obj fields) => .ok (load_config (.ok fields))
  | .parsed (.str s) =>
      if DEFAULT_ADVANCED.any (fun kv => pyStrContains s kv.1) then
        .error .typeError
      else .ok DEFAULT_ADVANCED
  | .parsed (.arr strElems) =>
      if DEFAULT_ADVANCED.any (fun kv => strElems.contains kv.1) then
        .error .typeError
      else .ok DEFAULT_ADVANCED
  | .parsed .prim => .error .typeError

/-- Behaviour of the external controller during one `perform_dfu` call:
the `(current, total, message)` triples it feeds to the registered
progress callback, followed by its outcome — a boolean return or a raised
exception with message text.  The controller is the opaque external
collaborator; its behaviour is the oracle the job is run against. -/
structure Controller where
  events : List (Int × Int × String)
  result : Except String Bool

/-- Arguments of `DfuApi.start_dfu` (`src/app.py` lines 73-80). -/
structure Args where
  firmware_path : String
  version : String
  target_name : String
  hw_id : String
  timeout : Int

/-- Observable step of the background job, recorded in program order:
progress stores (with the percentage argument as passed), controller
construction, `configure`, callback registration, `load_config`, and the
`perform_dfu` invocation with its keyword arguments. -/
inductive Ev where
  | setP (current total : Int) (message : String) (percentage : Option ℚ)
  | construct (hw_id client_type : String)
  | configure (target_name : String) (timeout : Int)
  | setCallback
  | loadCfg
  | performDfu (firmware_path : String) (app_id : Int) (version : String)
      (start_address block_size ring_type force_flags reboot_wait : Int)
deriving DecidableEq

/-- One relay of the progress callback (`src/app.py` lines 102-104): the
callback computes `current/total*100` when `total > 0`, else `0`, and
passes it explicitly to `_set_progress`. -/
def relayStep (s : DfuState) (e : Int × Int × String) : DfuState :=
  set_progress s e.1 e.2.1 e.2.2
    (some (if 0 < e.2.1 then ((e.1 : ℚ) / (e.2.1 : ℚ)) * 100 else 0))

/-- Trace events of the callback relays. -/
def relayTrace (events : List (Int × Int × String)) : List Ev :=
  events.map (fun e =>
    Ev.setP e.1 e.2.1 e.2.2
      (some (if 0 < e.2.1 then ((e.1 : ℚ) / (e.2.1 : ℚ)) * 100 else 0)))

/-- Boolean subsequence test: does the first list occur, in order, inside
the second? -/
def isSubseqOf : List Ev → List Ev → Bool
  | [], _ => true
  | _ :: _, [] => false
  | a :: as, b :: bs => if a = b then isSubseqOf as bs else isSubseqOf (a :: as) bs

/-- Steps of the job before `perform_dfu` returns, in the order the code
performs them (`src/app.py` lines 96-119). -/
def preTrace (args : Args) (cfg : List (String × Int)) : List Ev :=
  [Ev.setP 0 0 "Connecting…" none,
   Ev.construct args.hw_id "ble",
   Ev.configure args.target_name args.timeout,
   Ev.setCallback,
   Ev.setP 0 0 "Performing DFU…" none,
   Ev.loadCfg,
   Ev.performDfu args.firmware_path (cfgGet cfg "app_id") args.version
     (cfgGet cfg "start_address") (cfgGet cfg "block_size")
     (cfgGet cfg "ring_type") (cfgGet cfg "force_flags")
     (cfgGet cfg "reboot_wait")]

/-- Embedding of the inner closure `run` of `DfuApi.start_dfu`
(`src/app.py` lines 96-130): emit the connecting snapshot, build and
configure the controller, register the callback, emit the performing
snapshot, load the configuration, invoke `perform_dfu` (relaying its
callback events), store the terminal snapshot for the three outcomes, and
in the `finally` clause clear the running flag.  Returns the event trace,
the final state and the outcome as seen by `run_and_capture`. -/
def runJob (ctrl : Controller) (args : Args) (cfgRead : ConfigRead)
    (s0 : DfuState) : List Ev × DfuState × Except String Bool :=
  let s1 := set_progress s0 0 0 "Connecting…" none
  let s2 := set_progress s1 0 0 "Performing DFU…" none
  let cfg := load_config cfgRead
  let s3 := ctrl.events.foldl relayStep s2
  let tr := preTrace args cfg ++ relayTrace ctrl.events
  match ctrl.result with
  | .ok true =>
      (tr ++ [Ev.setP 100 100 "DFU completed successfully." (some 100)],
       { set_progress s3 100 100 "DFU completed successfully." (some 100) with
           running := false },
       .ok true)
  | .ok false =>
      (tr ++ [Ev.setP 0 0 "DFU failed." (some 0)],
       { set_progress s3 0 0 "DFU failed." (some 0) with running := false },
       .ok false)
  | .error e =>
      (tr ++ [Ev.setP 0 0 ("Error: " ++ e) (some 0)],
       { set_progress s3 0 0 ("Error: " ++ e) (some 0) with running := false },
       .error e)

/-- Error text raised when the `platform_controller` import failed
(`src/app.py` lines 85-88). -/
def unavailableMsg : String :=
  "PlatformController is not installed. Add the package that provides it to requirements.txt (e.g. platform_controller or pyring)."

/-- Error text of the admission check (`src/app.py` line 92). -/
def alreadyRunningMsg : String := "DFU is already running."

/-- Error text of the unreachable trailing branch (`src/app.py` line 148). -/
def threadNoReturnMsg : String := "DFU thread did not return."

/-- Snapshot written at admission (`src/app.py` line 94). -/
def startingProgress : Progress := ⟨0, 0, "Starting…", 0⟩

/-- State after the admission critical section (`src/app.py` lines 90-94):
inside one lock acquisition the running flag is set and the progress
snapshot is replaced by the starting snapshot. -/
def admitState : DfuState := ⟨startingProgress, true⟩

/-- Contents of `result_holder` after the spawned thread was joined
(`src/app.py` lines 132-142): `run_and_capture` appends the return value
of `run`, or the `Exception` it raised, so the list is a singleton. -/
def result_holder_of (ctrl : Controller) (args : Args) (cfgRead : ConfigRead)
    (s0 : DfuState) : List (Except String Bool) :=
  [(runJob ctrl args cfgRead s0).2.2]

/-- Dispatch on `result_holder` (`src/app.py` lines 143-148): return the
captured boolean, re-raise the captured exception, and fall through to the
"thread did not return" error on an empty holder. -/
def dispatch (holder : List (Except String Bool)) : Except String Bool :=
  match holder with
  | r :: _ => r
  | [] => .error threadNoReturnMsg

/-- Embedding of `DfuApi.start_dfu` (`src/app.py` lines 73-148):
fail when the controller import is unavailable; under the lock, reject
when a job is running, else set the running flag and the starting
snapshot; run the job (spawned and immediately joined, hence sequential
here) and dispatch its captured outcome. -/
def start_dfu (available : Bool) (ctrl : Controller) (args : Args)
    (cfgRead : ConfigRead) (s : DfuState) : DfuState × Except String Bool :=
  if available = false then (s, .error unavailableMsg)
  else if s.running then (s, .error alreadyRunningMsg)
  else ((runJob ctrl args cfgRead admitState).2.1,
        dispatch (result_holder_of ctrl args cfgRead admitState))

/-! Interleaving model of two concurrent `start_dfu` calls.  The lock
(`self._progress_lock`) makes the admission check-and-set (`src/app.py`
lines 90-94) and the `finally` release (lines 128-130) atomic, so each is
one step; everything between them is the running job. -/

/-- Position of one caller in its `start_dfu` call: not yet at the
admission check, rejected by it, running the admitted job, or done after
the `finally` release. -/
inductive TPc where
  | start
  | rejected
  | jobRunning
  | doneAdmitted
deriving DecidableEq, Fintype

/-- Joint state of the shared running flag and the two callers. -/
structure Sys where
  running : Bool
  a : TPc
  b : TPc
deriving DecidableEq, Fintype

/-- Identity of one of the two concurrent callers. -/
inductive Tid where
  | A
  | B
deriving DecidableEq, Fintype

/-- Atomic actions: the lock-held admission check-and-set of a caller and
the lock-held `finally` release of a caller. -/
inductive Act where
  | check (t : Tid)
  | finish (t : Tid)
deriving DecidableEq, Fintype

/-- Both callers poised before their admission checks, flag idle. -/
def Sys.init : Sys := ⟨false, .start, .start⟩

/-- One atomic step of the interleaving: an admission check observes the
flag and either rejects or sets it and enters the job (`src/app.py` lines
90-94); a finish clears the flag of a running job (lines 128-130).
Returns `none` when the action is not enabled. -/
def step (s : Sys) : Act → Option Sys
  | .check .A =>
      if s.a = .start then
        some (if s.running then { s with a := .rejected }
              else { running := true, a := .jobRunning, b := s.b })
      else none
  | .check .B =>
      if s.b = .start then
        some (if s.running then { s with b := .rejected }
              else { running := true, a := s.a, b := .jobRunning })
      else none
  | .finish .A =>
      if s.a = .jobRunning then
        some { s with running := false, a := .doneAdmitted }
      else none
  | .finish .B =>
      if s.b = .jobRunning then
        some { s with running := false, b := .doneAdmitted }
      else none

/-- Run a schedule of atomic actions from a state; `none` when some action
was not enabled. -/
def runSched (s : Sys) : List Act → Option Sys
  | [] => some s
  | act :: acts =>
      match step s act with
      | some s1 => runSched s1 acts
      | none => none

/-- Whether an action is an admission check. -/
def isCheck : Act → Bool
  | .check _ => true
  | .finish _ => false

/-- Whether a schedule contains no admission check. -/
def noChecks : List Act → Bool
  | [] => true
  | act :: acts => !isCheck act && noChecks acts

/-- The two calls overlap: both admission checks happen while the other
call is still in flight, i.e. no check occurs after a finish. -/
def checksBeforeFinishes : List Act → Bool
  | [] => true
  | act :: acts =>
      if isCheck act then checksBeforeFinishes acts else noChecks acts

/-- Number of releases of the running flag in a schedule. -/
def finishCount (acts : List Act) : Nat :=
  (acts.filter (fun a => !isCheck a)).length

/-- A caller whose call has returned: it was rejected at admission or its
admitted job finished. -/
def completed (p : TPc) : Prop := p = TPc.rejected ∨ p = TPc.doneAdmitted

instance (p : TPc) : Decidable (completed p) := by
  unfold completed; infer_instance

/-- Inductive invariant of the machine: the flag is set exactly when some
caller is in its admitted job, and never are both. -/
def SysInv (s : Sys) : Prop :=
  (s.running = true ↔ (s.a = TPc.jobRunning ∨ s.b = TPc.jobRunning)) ∧
    ¬(s.a = TPc.jobRunning ∧ s.b = TPc.jobRunning)

instance (s : Sys) : Decidable (SysInv s) := by
  unfold SysInv; infer_instance

example : load_config .absent = DEFAULT_ADVANCED := rfl
example : cfgGet (load_config (.ok [("block_size", 64), ("junk", 7)])) "block_size" = 64 := by decide
example : cfgGet (load_config (.ok [("block_size", 64), ("junk", 7)])) "app_id" = 1 := by decide
example : dictGet (load_config (.ok [("junk", 7)])) "junk" = none := by decide

example :
    (start_dfu true ⟨[], .ok true⟩ ⟨"f", "v", "t", "h", 10⟩ .absent
      ⟨initProgress, false⟩).2 = .ok true := rfl
example :
    (start_dfu true ⟨[], .error "boom"⟩ ⟨"f", "v", "t", "h", 10⟩ .absent
      ⟨initProgress, false⟩).1.running = false := rfl
example :
    (start_dfu true ⟨[], .ok true⟩ ⟨"f", "v", "t", "h", 10⟩ .absent
      ⟨initProgress, true⟩).2 = .error alreadyRunningMsg := rfl

example : runSched Sys.init [Act.check .A, Act.check .B, Act.finish .A] =
    some ⟨false, .doneAdmitted, .rejected⟩ := by decide
example : runSched Sys.init [Act.check .A, Act.finish .A, Act.check .B] =
    some ⟨true, .doneAdmitted, .jobRunning⟩ := by decide
example : checksBeforeFinishes [Act.check .A, Act.finish .A, Act.check .B] = false := by decide

/-- Evaluation of the rounding at zero. -/
lemma pyRound1_zero : pyRound1 0 = 0 := by
  unfold pyRound1 roundHalfEven
  norm_num

/-- Evaluation of the rounding at one hundred. -/
lemma pyRound1_hundred : pyRound1 100 = 100 := by
  unfold pyRound1 roundHalfEven
  norm_num

/-- Every enabled step preserves the machine invariant. -/
lemma step_inv : ∀ s a s1, SysInv s → step s a = some s1 → SysInv s1 := by decide

/-- Running any schedule preserves the machine invariant. -/
lemma runSched_inv (acts : List Act) :
    ∀ s s1, SysInv s → runSched s acts = some s1 → SysInv s1 := by
  induction acts with
  | nil =>
      intro s s1 h hr
      replace hr : some s = some s1 := hr
      cases hr
      exact h
  | cons a acts ih =>
      intro s s1 h hr
      cases hstep : step s a with
      | none => simp [runSched, hstep] at hr
      | some s2 =>
          simp only [runSched, hstep] at hr
          exact ih s2 s1 (step_inv s a s2 h hstep) hr

/-- In a state where no finish action is enabled, a schedule without
checks cannot move: it must be empty. -/
lemma runSched_stuckFin (s : Sys) (h : ∀ t, step s (Act.finish t) = none) :
    ∀ acts s1, noChecks acts = true → runSched s acts = some s1 →
      acts = [] ∧ s1 = s := by
  intro acts s1 hn hr
  cases acts with
  | nil =>
      replace hr : some s = some s1 := hr
      cases hr
      exact ⟨rfl, rfl⟩
  | cons a acts =>
      cases a with
      | check t => simp [noChecks, isCheck] at hn
      | finish t => simp [runSched, h t] at hr

/-- Analysis of the race of two overlapping admission attempts: from the
initial state, under a schedule whose checks all precede any finish and
that completes both calls, one caller ends admitted-and-done, the other
rejected, the flag ends idle, and it was released exactly once. -/
lemma race_outcome (acts : List Act) (s : Sys)
    (hr : runSched Sys.init acts = some s)
    (hc : checksBeforeFinishes acts = true)
    (hca : completed s.a) (hcb : completed s.b) :
    ((s.a = TPc.doneAdmitted ∧ s.b = TPc.rejected) ∨
      (s.a = TPc.rejected ∧ s.b = TPc.doneAdmitted)) ∧
    s.running = false ∧ finishCount acts = 1 := by
  rcases acts with _ | ⟨a1, r1⟩
  · replace hr : some Sys.init = some s := hr
    cases hr
    rcases hca with h | h <;> cases h
  · cases a1 with
    | check t1 =>
      cases t1 with
      | A =>
        replace hr : runSched ⟨true, .jobRunning, .start⟩ r1 = some s := hr
        replace hc : checksBeforeFinishes r1 = true := hc
        rcases r1 with _ | ⟨a2, r2⟩
        · replace hr : some (⟨true, .jobRunning, .start⟩ : Sys) = some s := hr
          cases hr
          rcases hcb with h | h <;> cases h
        · cases a2 with
          | check t2 =>
            cases t2 with
            | A =>
              replace hr : (none : Option Sys) = some s := hr
              cases hr
            | B =>
              replace hr : runSched ⟨true, .jobRunning, .rejected⟩ r2 = some s := hr
              replace hc : checksBeforeFinishes r2 = true := hc
              rcases r2 with _ | ⟨a3, r3⟩
              · replace hr : some (⟨true, .jobRunning, .rejected⟩ : Sys) = some s := hr
                cases hr
                rcases hca with h | h <;> cases h
              · cases a3 with
                | check t3 =>
                  cases t3 with
                  | A =>
                    replace hr : (none : Option Sys) = some s := hr
                    cases hr
                  | B =>
                    replace hr : (none : Option Sys) = some s := hr
                    cases hr
                | finish t3 =>
                  cases t3 with
                  | A =>
                    replace hr :
                        runSched ⟨false, .doneAdmitted, .rejected⟩ r3 = some s := hr
                    replace hc : noChecks r3 = true := hc
                    obtain ⟨hnil, hs⟩ :=
                      runSched_stuckFin ⟨false, .doneAdmitted, .rejected⟩
                        (by decide) r3 s hc hr
                    subst hnil
                    subst hs
                    exact ⟨Or.inl ⟨rfl, rfl⟩, rfl, rfl⟩
                  | B =>
                    replace hr : (none : Option Sys) = some s := hr
                    cases hr
          | finish t2 =>
            cases t2 with
            | A =>
              replace hr : runSched ⟨false, .doneAdmitted, .start⟩ r2 = some s := hr
              replace hc : noChecks r2 = true := hc
              obtain ⟨hnil, hs⟩ :=
                runSched_stuckFin ⟨false, .doneAdmitted, .start⟩
                  (by decide) r2 s hc hr
              subst hs
              rcases hcb with h | h <;> cases h
            | B =>
              replace hr : (none : Option Sys) = some s := hr
              cases hr
      | B =>
        replace hr : runSched ⟨true, .start, .jobRunning⟩ r1 = some s := hr
        replace hc : checksBeforeFinishes r1 = true := hc
        rcases r1 with _ | ⟨a2, r2⟩
        · replace hr : some (⟨true, .start, .jobRunning⟩ : Sys) = some s := hr
          cases hr
          rcases hca with h | h <;> cases h
        · cases a2 with
          | check t2 =>
            cases t2 with
            | B =>
              replace hr : (none : Option Sys) = some s := hr
              cases hr
            | A =>
              replace hr : runSched ⟨true, .rejected, .jobRunning⟩ r2 = some s := hr
              replace hc : checksBeforeFinishes r2 = true := hc
              rcases r2 with _ | ⟨a3, r3⟩
              · replace hr : some (⟨true, .rejected, .jobRunning⟩ : Sys) = some s := hr
                cases hr
                rcases hcb with h | h <;> cases h
              · cases a3 with
                | check t3 =>
                  cases t3 with
                  | A =>
                    replace hr : (none : Option Sys) = some s := hr
                    cases hr
                  | B =>
                    replace hr : (none : Option Sys) = some s := hr
                    cases hr
                | finish t3 =>
                  cases t3 with
                  | B =>
                    replace hr :
                        runSched ⟨false, .rejected, .doneAdmitted⟩ r3 = some s := hr
                    replace hc : noChecks r3 = true := hc
                    obtain ⟨hnil, hs⟩ :=
                      runSched_stuckFin ⟨false, .rejected, .doneAdmitted⟩
                        (by decide) r3 s hc hr
                    subst hnil
                    subst hs
                    exact ⟨Or.inr ⟨rfl, rfl⟩, rfl, rfl⟩
                  | A =>
                    replace hr : (none : Option Sys) = some s := hr
                    cases hr
          | finish t2 =>
            cases t2 with
            | B =>
              replace hr : runSched ⟨false, .start, .doneAdmitted⟩ r2 = some s := hr
              replace hc : noChecks r2 = true := hc
              obtain ⟨hnil, hs⟩ :=
                runSched_stuckFin ⟨false, .start, .doneAdmitted⟩
                  (by decide) r2 s hc hr
              subst hs
              rcases hca with h | h <;> cases h
            | A =>
              replace hr : (none : Option Sys) = some s := hr
              cases hr
    | finish t1 =>
      cases t1 with
      | A =>
        replace hr : (none : Option Sys) = some s := hr
        cases hr
      | B =>
        replace hr : (none : Option Sys) = some s := hr
        cases hr

/-- C1: with the controller available, `start_dfu` raises the
already-running error exactly when the running flag is set at the
admission check, a rejected call leaves the state (flag and progress
snapshot) untouched, and an admitted call proceeds from `admitState`,
whose running flag is set — check and set being one atomic critical
section in the model. -/
theorem C1_admission (ctrl : Controller) (args : Args) (r : ConfigRead)
    (s : DfuState) :
    (s.running = true →
      start_dfu true ctrl args r s = (s, .error alreadyRunningMsg)) ∧
    (s.running = false →
      start_dfu true ctrl args r s =
        ((runJob ctrl args r admitState).2.1,
         (runJob ctrl args r admitState).2.2) ∧
      admitState.running = true) := by
  constructor
  · intro h
    simp [start_dfu, h]
  · intro h
    refine ⟨?_, rfl⟩
    simp [start_dfu, h, dispatch, result_holder_of]

/-- Witness for C1 at concrete inputs: one rejected call, one admitted. -/
theorem C1_admission_witness :
    (start_dfu true ⟨[], .ok true⟩ ⟨"f", "v", "t", "h", 10⟩ .absent
        ⟨initProgress, true⟩ = (⟨initProgress, true⟩, .error alreadyRunningMsg)) ∧
    (start_dfu true ⟨[], .ok true⟩ ⟨"f", "v", "t", "h", 10⟩ .absent
        ⟨initProgress, false⟩ =
      ((runJob ⟨[], .ok true⟩ ⟨"f", "v", "t", "h", 10⟩ .absent admitState).2.1,
       (runJob ⟨[], .ok true⟩ ⟨"f", "v", "t", "h", 10⟩ .absent admitState).2.2) ∧
      admitState.running = true) :=
  ⟨(C1_admission ⟨[], .ok true⟩ ⟨"f", "v", "t", "h", 10⟩ .absent
      ⟨initProgress, true⟩).1 rfl,
   (C1_admission ⟨[], .ok true⟩ ⟨"f", "v", "t", "h", 10⟩ .absent
      ⟨initProgress, false⟩).2 rfl⟩

/-- C4: when the controller import is unresolved, `start_dfu` fails at
once with the unavailable-dependency error and returns the state — flag
and progress snapshot — unchanged. -/
theorem C4_unavailable (ctrl : Controller) (args : Args) (r : ConfigRead)
    (s : DfuState) :
    start_dfu false ctrl args r s = (s, .error unavailableMsg) := by
  simp [start_dfu]

/-- Counterexample to C5 as stated: on a read or parse failure the claim
promises exactly the built-in defaults, and on every document a returned
mapping — but a non-UTF-8 file propagates `UnicodeDecodeError` (caught by
neither clause of `src/app.py` line 43), and a parsed non-object document
whose membership test hits a recognized key — the JSON string
`"xx app_id yy"`, the JSON array `["app_id"]`, or any number — makes the
merge loop raise `TypeError`: `load_config` raises instead of returning. -/
theorem C5_counterexample :
    load_config_py .badUtf8 = .error PyExc.unicodeDecodeError ∧
    load_config_py (.parsed (.str "xx app_id yy")) = .error PyExc.typeError ∧
    load_config_py (.parsed (.arr ["app_id"])) = .error PyExc.typeError ∧
    load_config_py (.parsed .prim) = .error PyExc.typeError := by
  exact ⟨rfl, rfl, rfl, rfl⟩

/-- C5 as amended: on an absent file or a caught read/parse failure
(`OSError`, `json.JSONDecodeError`) the result is exactly the built-in
defaults; a parsed object document yields a mapping with exactly the
recognized default keys, persisted bindings honoured only for recognized
keys and unknown keys dropped; but a non-UTF-8 file propagates
`UnicodeDecodeError`, a parsed number, boolean or null propagates
`TypeError` from the membership test, and a parsed string or array
document propagates `TypeError` exactly when it meets a recognized key,
yielding the defaults otherwise. -/
theorem C5_load_config_py :
    (load_config_py .absent = .ok DEFAULT_ADVANCED) ∧
    (load_config_py .osError = .ok DEFAULT_ADVANCED) ∧
    (load_config_py .badJson = .ok DEFAULT_ADVANCED) ∧
    (load_config_py .badUtf8 = .error PyExc.unicodeDecodeError) ∧
    (∀ fields : List (String × Int),
      load_config_py (.parsed (.obj fields)) = .ok (load_config (.ok fields)) ∧
      (load_config (.ok fields)).map Prod.fst = DEFAULT_ADVANCED.map Prod.fst) ∧
    (∀ (fields : List (String × Int)) (k : String) (v : Int),
      k ∈ DEFAULT_ADVANCED.map Prod.fst → dictGet fields k = some v →
        dictGet (load_config (.ok fields)) k = some v) ∧
    (∀ (fields : List (String × Int)) (k : String),
      k ∈ DEFAULT_ADVANCED.map Prod.fst → dictGet fields k = none →
        dictGet (load_config (.ok fields)) k = dictGet DEFAULT_ADVANCED k) ∧
    (∀ (fields : List (String × Int)) (k : String),
      k ∉ DEFAULT_ADVANCED.map Prod.fst →
        dictGet (load_config (.ok fields)) k = none) ∧
    (∀ s : String,
      (DEFAULT_ADVANCED.any (fun kv => pyStrContains s kv.1) = true →
        load_config_py (.parsed (.str s)) = .error PyExc.typeError) ∧
      (DEFAULT_ADVANCED.any (fun kv => pyStrContains s kv.1) = false →
        load_config_py (.parsed (.str s)) = .ok DEFAULT_ADVANCED)) ∧
    (∀ strElems : List String,
      (DEFAULT_ADVANCED.any (fun kv => strElems.contains kv.1) = true →
        load_config_py (.parsed (.arr strElems)) = .error PyExc.typeError) ∧
      (DEFAULT_ADVANCED.any (fun kv => strElems.contains kv.1) = false →
        load_config_py (.parsed (.arr strElems)) = .ok DEFAULT_ADVANCED)) ∧
    (load_config_py (.parsed .prim) = .error PyExc.typeError) := by
  refine ⟨rfl, rfl, rfl, rfl, ?_, ?_, ?_, ?_, ?_, ?_, rfl⟩
  · intro fields
    exact ⟨rfl, by simp [load_config, DEFAULT_ADVANCED]⟩
  · intro fields k v hk hv
    simp [DEFAULT_ADVANCED] at hk
    rcases hk with h | h | h | h | h | h <;> subst h <;>
      simp [load_config, DEFAULT_ADVANCED, dictGet] <;> simp [dictGet] at hv <;>
      simp [hv]
  · intro fields k hk hv
    simp [DEFAULT_ADVANCED] at hk
    rcases hk with h | h | h | h | h | h <;> subst h <;>
      simp [load_config, DEFAULT_ADVANCED, dictGet] <;> simp [dictGet] at hv <;>
      simp [hv]
  · intro fields k hk
    simp [DEFAULT_ADVANCED] at hk
    obtain ⟨h1, h2, h3, h4, h5, h6⟩ := hk
    simp [load_config, DEFAULT_ADVANCED, dictGet, Ne.symm h1, Ne.symm h2,
      Ne.symm h3, Ne.symm h4, Ne.symm h5, Ne.symm h6]
  · intro s
    refine ⟨fun h => ?_, fun h => ?_⟩ <;>
      · show (if (DEFAULT_ADVANCED.any fun kv => pyStrContains s kv.1) = true
            then (Except.error PyExc.typeError : Except PyExc (List (String × Int)))
            else Except.ok DEFAULT_ADVANCED) = _
        rw [h]
        rfl
  · intro strElems
    refine ⟨fun h => ?_, fun h => ?_⟩ <;>
      · show (if (DEFAULT_ADVANCED.any fun kv => strElems.contains kv.1) = true
            then (Except.error PyExc.typeError : Except PyExc (List (String × Int)))
            else Except.ok DEFAULT_ADVANCED) = _
        rw [h]
        rfl

/-- Witness for C5 at concrete documents: a recognized override applies,
a missing recognized key keeps its default, an unknown key is dropped, a
benign string document yields the defaults, and a string document
containing a recognized key raises. -/
theorem C5_load_config_py_witness :
    dictGet (load_config (.ok [("block_size", 64)])) "block_size" = some 64 ∧
    dictGet (load_config (.ok [("junk", 7)])) "app_id" =
      dictGet DEFAULT_ADVANCED "app_id" ∧
    dictGet (load_config (.ok [("junk", 7)])) "junk" = none ∧
    load_config_py (.parsed (.str "hello")) = .ok DEFAULT_ADVANCED ∧
    load_config_py (.parsed (.arr ["block_size"])) = .error PyExc.typeError :=
  ⟨C5_load_config_py.2.2.2.2.2.1 [("block_size", 64)] "block_size" 64
      (by decide) (by decide),
   C5_load_config_py.2.2.2.2.2.2.1 [("junk", 7)] "app_id" (by decide) (by decide),
   C5_load_config_py.2.2.2.2.2.2.2.1 [("junk", 7)] "junk" (by decide),
   (C5_load_config_py.2.2.2.2.2.2.2.2.1 "hello").2 (by decide),
   (C5_load_config_py.2.2.2.2.2.2.2.2.2.1 ["block_size"]).1 (by decide)⟩

/-- Counterexample to C6 as stated: an explicitly supplied percentage of
one quarter is stored as one fifth (0.25 rounds to 0.2 at one decimal),
not as the supplied value. -/
theorem C6_counterexample :
    (set_progress ⟨initProgress, false⟩ 0 0 "w" (some (1/4))).progress.percentage ≠
      (1/4 : ℚ) := by
  show pyRound1 (1/4) ≠ (1/4 : ℚ)
  unfold pyRound1 roundHalfEven
  norm_num [(by decide : Int.fdiv 5 2 = 2)]

/-- C6 as amended: an omitted percentage is stored as
`round(current/total*100, 1)` when `total > 0` and `0.0` otherwise, and
an explicitly supplied percentage is stored rounded to one decimal
place. -/
theorem C6_set_progress (s : DfuState) (current total : Int) (message : String) :
    (∀ p : ℚ, (set_progress s current total message (some p)).progress =
        ⟨current, total, message, pyRound1 p⟩) ∧
    (set_progress s current total message none).progress =
      ⟨current, total, message,
        if 0 < total then pyRound1 (((current : ℚ) / (total : ℚ)) * 100)
        else 0⟩ := by
  refine ⟨fun p => rfl, ?_⟩
  by_cases h : 0 < total <;> simp [set_progress, h, pyRound1_zero]

/-- C2: in the interleaving model of the admission critical section and
the finally release, at most one caller is ever inside its admitted job;
and for two overlapping calls (both checks occur while the other call is
in flight) that both complete, exactly one is admitted, the other ends
rejected by the already-running check, and the running flag is released
to idle exactly once, after the admitted job finishes. -/
theorem C2_single_flight :
    (∀ (acts : List Act) (s : Sys), runSched Sys.init acts = some s →
      ¬(s.a = TPc.jobRunning ∧ s.b = TPc.jobRunning)) ∧
    (∀ (acts : List Act) (s : Sys), runSched Sys.init acts = some s →
      checksBeforeFinishes acts = true → completed s.a → completed s.b →
      ((s.a = TPc.doneAdmitted ∧ s.b = TPc.rejected) ∨
        (s.a = TPc.rejected ∧ s.b = TPc.doneAdmitted)) ∧
      s.running = false ∧ finishCount acts = 1) := by
  constructor
  · intro acts s hr
    exact (runSched_inv acts Sys.init s (by decide) hr).2
  · intro acts s hr hc hca hcb
    exact race_outcome acts s hr hc hca hcb

/-- Witness for C2 on a concrete overlapping schedule: caller A admits,
caller B is rejected, caller A finishes. -/
theorem C2_single_flight_witness :
    ¬((Sys.mk false .doneAdmitted .rejected).a = TPc.jobRunning ∧
      (Sys.mk false .doneAdmitted .rejected).b = TPc.jobRunning) ∧
    ((((Sys.mk false .doneAdmitted .rejected).a = TPc.doneAdmitted ∧
        (Sys.mk false .doneAdmitted .rejected).b = TPc.rejected) ∨
      ((Sys.mk false .doneAdmitted .rejected).a = TPc.rejected ∧
        (Sys.mk false .doneAdmitted .rejected).b = TPc.doneAdmitted)) ∧
      (Sys.mk false .doneAdmitted .rejected).running = false ∧
      finishCount [Act.check .A, Act.check .B, Act.finish .A] = 1) :=
  ⟨C2_single_flight.1 [Act.check .A, Act.check .B, Act.finish .A]
      (Sys.mk false .doneAdmitted .rejected) (by decide),
   C2_single_flight.2 [Act.check .A, Act.check .B, Act.finish .A]
      (Sys.mk false .doneAdmitted .rejected) (by decide) (by decide)
      (by decide) (by decide)⟩

/-- C3: when the admitted job sees `perform_dfu` raise, the final
snapshot is `(0, 0, "Error: " ++ e, 0.0)`, the same exception propagates
out of `start_dfu`, and the running flag is back to idle when `start_dfu`
returns — as it is on every other admitted outcome. -/
theorem C3_error_path (ctrl : Controller) (args : Args) (r : ConfigRead)
    (s : DfuState) (e : String)
    (hidle : s.running = false) (herr : ctrl.result = .error e) :
    (start_dfu true ctrl args r s).1.progress = ⟨0, 0, "Error: " ++ e, 0⟩ ∧
    (start_dfu true ctrl args r s).2 = .error e ∧
    (start_dfu true ctrl args r s).1.running = false ∧
    (∀ ctrl1 : Controller,
      (start_dfu true ctrl1 args r s).1.running = false) := by
  refine ⟨?_, ?_, ?_, ?_⟩
  · simp [start_dfu, hidle, runJob, herr, set_progress, pyRound1_zero]
  · simp [start_dfu, hidle, runJob, herr, dispatch, result_holder_of]
  · simp [start_dfu, hidle, runJob, herr, set_progress]
  · intro ctrl1
    cases hres : ctrl1.result with
    | error e1 => simp [start_dfu, hidle, runJob, hres, set_progress]
    | ok b => cases b <;> simp [start_dfu, hidle, runJob, hres, set_progress]

/-- Witness for C3 at a concrete raising controller. -/
theorem C3_error_path_witness :
    (start_dfu true ⟨[], .error "boom"⟩ ⟨"f", "v", "t", "h", 10⟩ .absent
        ⟨initProgress, false⟩).1.progress = ⟨0, 0, "Error: " ++ "boom", 0⟩ ∧
    (start_dfu true ⟨[], .error "boom"⟩ ⟨"f", "v", "t", "h", 10⟩ .absent
        ⟨initProgress, false⟩).2 = .error "boom" ∧
    (start_dfu true ⟨[], .error "boom"⟩ ⟨"f", "v", "t", "h", 10⟩ .absent
        ⟨initProgress, false⟩).1.running = false ∧
    (∀ ctrl1 : Controller,
      (start_dfu true ctrl1 ⟨"f", "v", "t", "h", 10⟩ .absent
        ⟨initProgress, false⟩).1.running = false) :=
  C3_error_path ⟨[], .error "boom"⟩ ⟨"f", "v", "t", "h", 10⟩ .absent
    ⟨initProgress, false⟩ "boom" rfl rfl

/-- C7: for an admitted call, a `true` return of `perform_dfu` ends with
the success snapshot `(100, 100, "DFU completed successfully.", 100.0)`
and `start_dfu` returning success; a `false` return ends with the failure
snapshot `(0, 0, "DFU failed.", 0.0)` and `start_dfu` returning failure
without raising. -/
theorem C7_outcomes (ctrl : Controller) (args : Args) (r : ConfigRead)
    (s : DfuState) (hidle : s.running = false) :
    (ctrl.result = .ok true →
      (start_dfu true ctrl args r s).1.progress =
        ⟨100, 100, "DFU completed successfully.", 100⟩ ∧
      (start_dfu true ctrl args r s).2 = .ok true) ∧
    (ctrl.result = .ok false →
      (start_dfu true ctrl args r s).1.progress = ⟨0, 0, "DFU failed.", 0⟩ ∧
      (start_dfu true ctrl args r s).2 = .ok false) := by
  constructor
  · intro hres
    constructor
    · simp [start_dfu, hidle, runJob, hres, set_progress, pyRound1_hundred]
    · simp [start_dfu, hidle, runJob, hres, dispatch, result_holder_of]
  · intro hres
    constructor
    · simp [start_dfu, hidle, runJob, hres, set_progress, pyRound1_zero]
    · simp [start_dfu, hidle, runJob, hres, dispatch, result_holder_of]

/-- Witness for C7 at concrete succeeding and failing controllers. -/
theorem C7_outcomes_witness :
    ((start_dfu true ⟨[], .ok true⟩ ⟨"f", "v", "t", "h", 10⟩ .absent
        ⟨initProgress, false⟩).1.progress =
      ⟨100, 100, "DFU completed successfully.", 100⟩ ∧
     (start_dfu true ⟨[], .ok true⟩ ⟨"f", "v", "t", "h", 10⟩ .absent
        ⟨initProgress, false⟩).2 = .ok true) ∧
    ((start_dfu true ⟨[], .ok false⟩ ⟨"f", "v", "t", "h", 10⟩ .absent
        ⟨initProgress, false⟩).1.progress = ⟨0, 0, "DFU failed.", 0⟩ ∧
     (start_dfu true ⟨[], .ok false⟩ ⟨"f", "v", "t", "h", 10⟩ .absent
        ⟨initProgress, false⟩).2 = .ok false) :=
  ⟨(C7_outcomes ⟨[], .ok true⟩ ⟨"f", "v", "t", "h", 10⟩ .absent
      ⟨initProgress, false⟩ rfl).1 rfl,
   (C7_outcomes ⟨[], .ok false⟩ ⟨"f", "v", "t", "h", 10⟩ .absent
      ⟨initProgress, false⟩ rfl).2 rfl⟩

/-- Counterexample to C8 as stated: on a concrete admitted run, the
claimed step order — connecting snapshot, configuration resolution,
controller configuration, callback registration, performing snapshot,
perform-update — is not a subsequence of the actual job trace, because
the code resolves the configuration only after registering the callback
and emitting the performing snapshot. -/
theorem C8_counterexample :
    isSubseqOf
      [Ev.setP 0 0 "Connecting…" none,
       Ev.loadCfg,
       Ev.configure "oura_" 10,
       Ev.setCallback,
       Ev.setP 0 0 "Performing DFU…" none,
       Ev.performDfu "fw.bin" 1 "0.2.12" 0 512 8 0 10]
      (runJob ⟨[], .ok true⟩ ⟨"fw.bin", "0.2.12", "oura_", "h", 10⟩ .absent
        ⟨initProgress, true⟩).1 = false := by decide

/-- C8 as amended: once admitted, the job performs, in this order: emit
the connecting snapshot, construct the controller from the hardware id
over BLE, configure it with target and timeout, register the
progress-relay callback, emit the performing snapshot, resolve the
configuration via the loader, and invoke `perform_dfu` with the firmware
path, version and all resolved configuration fields. -/
theorem C8_job_sequence (ctrl : Controller) (args : Args) (r : ConfigRead)
    (s0 : DfuState) :
    (runJob ctrl args r s0).1.take 7 =
      [Ev.setP 0 0 "Connecting…" none,
       Ev.construct args.hw_id "ble",
       Ev.configure args.target_name args.timeout,
       Ev.setCallback,
       Ev.setP 0 0 "Performing DFU…" none,
       Ev.loadCfg,
       Ev.performDfu args.firmware_path (cfgGet (load_config r) "app_id")
         args.version (cfgGet (load_config r) "start_address")
         (cfgGet (load_config r) "block_size")
         (cfgGet (load_config r) "ring_type")
         (cfgGet (load_config r) "force_flags")
         (cfgGet (load_config r) "reboot_wait")] := by
  have hlen : (preTrace args (load_config r)).length = 7 := by
    simp [preTrace]
  cases hres : ctrl.result with
  | error e =>
      simp only [runJob, hres, List.append_assoc]
      rw [List.take_left' hlen]
      rfl
  | ok b =>
      cases b <;>
        · simp only [runJob, hres, List.append_assoc]
          rw [List.take_left' hlen]
          rfl

/-- C9: the captured-result holder is a singleton for every admitted job
— the job body either returns a boolean or raises an `Exception`, and
`run_and_capture` appends in either case — so the trailing
thread-did-not-return branch of the dispatch is never taken: `start_dfu`
returns the captured boolean or re-raises the captured exception. -/
theorem C9_holder_nonempty (ctrl : Controller) (args : Args) (r : ConfigRead)
    (s : DfuState) :
    result_holder_of ctrl args r s ≠ [] ∧
    dispatch (result_holder_of ctrl args r s) = (runJob ctrl args r s).2.2 ∧
    (s.running = false →
      (start_dfu true ctrl args r s).2 = (runJob ctrl args r admitState).2.2) := by
  refine ⟨by simp [result_holder_of], rfl, ?_⟩
  intro h
  simp [start_dfu, h, dispatch, result_holder_of]

/-- Witness for C9 at a concrete admitted call. -/
theorem C9_holder_nonempty_witness :
    result_holder_of ⟨[], .ok true⟩ ⟨"f", "v", "t", "h", 10⟩ .absent
      ⟨initProgress, false⟩ ≠ [] ∧
    dispatch (result_holder_of ⟨[], .ok true⟩ ⟨"f", "v", "t", "h", 10⟩ .absent
        ⟨initProgress, false⟩) =
      (runJob ⟨[], .ok true⟩ ⟨"f", "v", "t", "h", 10⟩ .absent
        ⟨initProgress, false⟩).2.2 ∧
    ((⟨initProgress, false⟩ : DfuState).running = false →
      (start_dfu true ⟨[], .ok true⟩ ⟨"f", "v", "t", "h", 10⟩ .absent
          ⟨initProgress, false⟩).2 =
        (runJob ⟨[], .ok true⟩ ⟨"f", "v", "t", "h", 10⟩ .absent admitState).2.2) :=
  C9_holder_nonempty ⟨[], .ok true⟩ ⟨"f", "v", "t", "h", 10⟩ .absent
    ⟨initProgress, false⟩

/-- C10: an admitted call replaces the progress snapshot by
`(0, 0, "Starting…", 0.0)` in the same atomic critical section that sets
the running flag — the job then runs from that state — while a rejected
call and an unavailable-dependency call return the prior state, snapshot
included, unchanged. -/
theorem C10_admission_snapshot (ctrl : Controller) (args : Args)
    (r : ConfigRead) (s : DfuState) :
    admitState = ⟨⟨0, 0, "Starting…", 0⟩, true⟩ ∧
    (s.running = false →
      start_dfu true ctrl args r s =
        ((runJob ctrl args r admitState).2.1,
         dispatch (result_holder_of ctrl args r admitState))) ∧
    (s.running = true →
      start_dfu true ctrl args r s = (s, .error alreadyRunningMsg)) ∧
    start_dfu false ctrl args r s = (s, .error unavailableMsg) := by
  refine ⟨rfl, ?_, ?_, by simp [start_dfu]⟩
  · intro h
    simp [start_dfu, h]
  · intro h
    simp [start_dfu, h]

/-- Witness for C10 at concrete admitted and rejected calls. -/
theorem C10_admission_snapshot_witness :
    admitState = ⟨⟨0, 0, "Starting…", 0⟩, true⟩ ∧
    (start_dfu true ⟨[], .ok true⟩ ⟨"f", "v", "t", "h", 10⟩ .absent
        ⟨initProgress, false⟩ =
      ((runJob ⟨[], .ok true⟩ ⟨"f", "v", "t", "h", 10⟩ .absent admitState).2.1,
       dispatch (result_holder_of ⟨[], .ok true⟩ ⟨"f", "v", "t", "h", 10⟩
         .absent admitState))) ∧
    (start_dfu true ⟨[], .ok true⟩ ⟨"f", "v", "t", "h", 10⟩ .absent
        ⟨initProgress, true⟩ = (⟨initProgress, true⟩, .error alreadyRunningMsg)) :=
  ⟨(C10_admission_snapshot ⟨[], .ok true⟩ ⟨"f", "v", "t", "h", 10⟩ .absent
      ⟨initProgress, false⟩).1,
   (C10_admission_snapshot ⟨[], .ok true⟩ ⟨"f", "v", "t", "h", 10⟩ .absent
      ⟨initProgress, false⟩).2.1 rfl,
   (C10_admission_snapshot ⟨[], .ok true⟩ ⟨"f", "v", "t", "h", 10⟩ .absent
      ⟨initProgress, true⟩).2.2.1 rfl⟩

end Dfu
